import Mathlib

/-!
Verification development for the NPU chatbot server.

The definitions below are shallow embeddings of the Python sources:
`app/api/websocket.py` (streaming chat protocol), `app/models/ov_inference.py`
(OpenVINO inference engine), `app/models/model_manager.py` (model lifecycle)
and `app/core/config.py` (configuration lookup).  Generators are embedded as
lists of the values they yield, dictionaries sent over the wire as an
inductive frame type, and the mutable engine/manager objects as explicit
state records threaded through functions.
-/

namespace Chatbot

/-- Outbound frames of the websocket protocol, mirroring the dictionaries
built in `app/api/websocket.py` (`{"type": "start"|"token"|"complete"|
"error"|"pong", "data": {...}}`).  Wall-clock fields (`inference_time`) are
omitted: they carry no protocol content. -/
inductive Frame where
  | start : Frame
  | token (text : String) (isFinal : Bool) : Frame
  | complete (totalTokens : Nat) : Frame
  | error (message : String) : Frame
  | pong : Frame
deriving DecidableEq, Repr

/-- One backend generation attempt, as seen by
`OpenVINOInferenceEngine.generate_response`: either the model produces a list
of decoded token texts and returns normally, or it raises an exception with
message `err` after having produced the texts in `tokens`. -/
inductive GenOutcome where
  | ok (tokens : List String) : GenOutcome
  | failAfter (tokens : List String) (err : String) : GenOutcome
deriving DecidableEq, Repr

/-- The token-text stream yielded by
`OpenVINOInferenceEngine.generate_response` (ov_inference.py lines 272-292):
each decoded token text is yielded only if non-empty (`if token_text:`), and
an exception during generation is caught and re-emitted as a final token
`"Error: " + str(e)` inside the stream itself (lines 290-292). -/
def ovStream : GenOutcome → List String
  | .ok ts => ts.filter (fun t => t ≠ "")
  | .failAfter ts e => ts.filter (fun t => t ≠ "") ++ ["Error: " ++ e]

/-- Python's `str.strip()`: remove whitespace from both ends of a string,
written as structural recursion over the character list so that concrete
instances evaluate inside the kernel. -/
def pyStrip (s : String) : String :=
  String.mk
    (((s.data.dropWhile Char.isWhitespace).reverse.dropWhile
        Char.isWhitespace).reverse)

/-- Modelled from the spec: `ModelManager.is_model_ready` is called by the
websocket handler (websocket.py line 104) but its definition is absent from
the sources; per the spec's status contract `{initialized, modelLoaded, ...}`
and the `EngineNotReady` error, it reports whether the manager is initialized
and the engine loaded. -/
def is_model_ready (initialized engineLoaded : Bool) : Bool :=
  initialized && engineLoaded

/-- Embedding of `handle_chat_message` (websocket.py lines 96-173).  The
manager readiness flags feed the spec-modelled `is_model_ready` guard; the
engine handle returned by the (also source-absent) `get_inference_engine` is
represented by the token stream its generator yields, and the Python loop
over that generator becomes a map over the list.  Guard order follows the
source: ready check, then the `message.strip()` emptiness check, then
`start`, one `token` frame per yielded token (with `is_final: False`), and a
final `complete` frame whose `total_tokens` is the loop counter. -/
def handle_chat_message (initialized engineLoaded : Bool) (message : String)
    (stream : List String) : List Frame :=
  if is_model_ready initialized engineLoaded = false then
    [Frame.error "Model not ready"]
  else if pyStrip message = "" then
    [Frame.error "Empty message"]
  else
    Frame.start :: (stream.map (fun t => Frame.token t false))
      ++ [Frame.complete stream.length]

/-- Frame-kind tests used to count frames of each type in an output list. -/
def isTokenFrame : Frame → Bool
  | .token _ _ => true
  | _ => false

def isStartFrame : Frame → Bool
  | .start => true
  | _ => false

def isCompleteFrame : Frame → Bool
  | .complete _ => true
  | _ => false

def isErrorFrame : Frame → Bool
  | .error _ => true
  | _ => false

/-- Number of frames in `l` satisfying `p`. -/
def countFrames (p : Frame → Bool) (l : List Frame) : Nat :=
  (l.filter p).length

theorem countFrames_append (p : Frame → Bool) (a b : List Frame) :
    countFrames p (a ++ b) = countFrames p a + countFrames p b := by
  simp [countFrames]

theorem countFrames_token_map (ts : List String) :
    countFrames isTokenFrame (ts.map (fun t => Frame.token t false))
      = ts.length := by
  induction ts with
  | nil => rfl
  | cons t ts ih => simp [countFrames, isTokenFrame] at ih ⊢; exact ih

theorem countFrames_start_map (ts : List String) :
    countFrames isStartFrame (ts.map (fun t => Frame.token t false)) = 0 := by
  induction ts with
  | nil => rfl
  | cons t ts ih => simp [countFrames, isStartFrame]

theorem countFrames_complete_map (ts : List String) :
    countFrames isCompleteFrame (ts.map (fun t => Frame.token t false))
      = 0 := by
  induction ts with
  | nil => rfl
  | cons t ts ih => simp [countFrames, isCompleteFrame]

/-- C2: for a ready model, a non-empty message and a normally completing
generation yielding token texts `ovStream (.ok ts)`, the emitted frame
sequence is exactly one `start` frame, then one `token` frame per generated
token in order, then exactly one `complete` frame which is the last frame
and whose `total_tokens` equals the number of `token` frames delivered. -/
theorem C2_stream_framing (m : String) (ts : List String)
    (hm : pyStrip m ≠ "") :
    handle_chat_message true true m (ovStream (.ok ts))
        = Frame.start :: ((ovStream (.ok ts)).map (fun t => Frame.token t false))
          ++ [Frame.complete (ovStream (.ok ts)).length]
      ∧ countFrames isStartFrame (handle_chat_message true true m (ovStream (.ok ts))) = 1
      ∧ countFrames isTokenFrame (handle_chat_message true true m (ovStream (.ok ts)))
          = (ovStream (.ok ts)).length
      ∧ countFrames isCompleteFrame (handle_chat_message true true m (ovStream (.ok ts))) = 1
      ∧ (handle_chat_message true true m (ovStream (.ok ts))).getLast?
          = some (Frame.complete
              (countFrames isTokenFrame (handle_chat_message true true m (ovStream (.ok ts))))) := by
  have hdef : handle_chat_message true true m (ovStream (.ok ts))
      = Frame.start :: ((ovStream (.ok ts)).map (fun t => Frame.token t false))
        ++ [Frame.complete (ovStream (.ok ts)).length] := by
    simp [handle_chat_message, is_model_ready, hm]
  refine ⟨hdef, ?_, ?_, ?_, ?_⟩
  · rw [hdef]
    simp [countFrames, isStartFrame, List.filter_append]
  · rw [hdef]
    have := countFrames_token_map (ovStream (.ok ts))
    simpa [countFrames, isTokenFrame, List.filter_append] using this
  · rw [hdef]
    simp [countFrames, isCompleteFrame, List.filter_append]
  · rw [hdef]
    have htok : countFrames isTokenFrame
        (Frame.start :: ((ovStream (.ok ts)).map (fun t => Frame.token t false))
          ++ [Frame.complete (ovStream (.ok ts)).length])
        = (ovStream (.ok ts)).length := by
      have := countFrames_token_map (ovStream (.ok ts))
      simpa [countFrames, isTokenFrame, List.filter_append] using this
    rw [htok]
    exact List.getLast?_concat _

/-- Witness for C2 at the concrete request of end-to-end scenario 1:
message "hello", token stream ["Hi", "!"]. -/
theorem C2_stream_framing_witness :
    handle_chat_message true true "hello" (ovStream (.ok ["Hi", "!"]))
        = Frame.start :: ((ovStream (.ok ["Hi", "!"])).map (fun t => Frame.token t false))
          ++ [Frame.complete (ovStream (.ok ["Hi", "!"])).length]
      ∧ countFrames isStartFrame (handle_chat_message true true "hello" (ovStream (.ok ["Hi", "!"]))) = 1
      ∧ countFrames isTokenFrame (handle_chat_message true true "hello" (ovStream (.ok ["Hi", "!"])))
          = (ovStream (.ok ["Hi", "!"])).length
      ∧ countFrames isCompleteFrame (handle_chat_message true true "hello" (ovStream (.ok ["Hi", "!"]))) = 1
      ∧ (handle_chat_message true true "hello" (ovStream (.ok ["Hi", "!"]))).getLast?
          = some (Frame.complete
              (countFrames isTokenFrame (handle_chat_message true true "hello" (ovStream (.ok ["Hi", "!"]))))) :=
  C2_stream_framing "hello" ["Hi", "!"] (by decide)


/-- C3: evaluation of the code at the failing input of end-to-end scenario 3
(message "hello"; the backend raises "boom" after producing one token).  The
failure is delivered as a `token` frame `"Error: boom"` inside the stream,
followed by a `complete` frame; no `error` frame is ever emitted on this
path, because `generate_response` (ov_inference.py lines 290-292) catches
the exception and yields the message as a stream element. -/
theorem C3_error_encoded_as_token :
    handle_chat_message true true "hello" (ovStream (.failAfter ["Hi"] "boom"))
        = [Frame.start, Frame.token "Hi" false, Frame.token "Error: boom" false,
           Frame.complete 2]
      ∧ countFrames isErrorFrame
          (handle_chat_message true true "hello" (ovStream (.failAfter ["Hi"] "boom"))) = 0
      ∧ countFrames isCompleteFrame
          (handle_chat_message true true "hello" (ovStream (.failAfter ["Hi"] "boom"))) = 1 := by
  refine ⟨by decide, by decide, by decide⟩

/-- Inbound traffic on one websocket connection, as classified by
`websocket_chat_endpoint` and `handle_websocket_message` (websocket.py
lines 45-93): an unparseable frame, a `{"type":"message"}` frame carrying
the chat text together with the backend outcome its generation will have,
a `{"type":"ping"}` frame, or a frame of unknown type.  The end of the
event list is the client disconnect. -/
inductive ClientEvent where
  | malformed : ClientEvent
  | message (text : String) (gen : GenOutcome) : ClientEvent
  | ping : ClientEvent
  | unknown (ty : String) : ClientEvent
deriving DecidableEq, Repr

/-- Embedding of `handle_websocket_message` (websocket.py lines 75-93),
together with the `json.JSONDecodeError` branch of its caller (lines
59-63): the frames the server sends in response to one inbound frame. -/
def handle_websocket_message (initialized engineLoaded : Bool) :
    ClientEvent → List Frame
  | .malformed => [Frame.error "Invalid JSON format"]
  | .message m g => handle_chat_message initialized engineLoaded m (ovStream g)
  | .ping => [Frame.pong]
  | .unknown t => [Frame.error ("Unknown message type: " ++ t)]

/-- Embedding of the receive loop of `websocket_chat_endpoint`
(websocket.py lines 51-72): inbound frames are handled strictly one after
another until the client disconnects, and the frames sent are the
concatenation of each message's responses. -/
def websocket_chat_endpoint (initialized engineLoaded : Bool) :
    List ClientEvent → List Frame
  | [] => []
  | e :: es =>
      handle_websocket_message initialized engineLoaded e
        ++ websocket_chat_endpoint initialized engineLoaded es

theorem mem_handle_chat_message_not_error_already
    (i l : Bool) (m : String) (s : List String) (f : Frame)
    (hf : f ∈ handle_chat_message i l m s) :
    f ≠ Frame.error "already generating" := by
  unfold handle_chat_message at hf
  split at hf
  · simp at hf
    subst hf
    decide
  · split at hf
    · simp at hf
      subst hf
      decide
    · intro hcontra
      subst hcontra
      simp [List.mem_append, List.mem_map] at hf

/-- C4 (amended): the channel's receive loop is strictly sequential, so a
second generation request on the same channel is handled only after the
first request's frames have all been emitted (the first stream proceeds
unaffected and the second is implicitly queued, not run concurrently), and
the server never emits an "already generating" error frame on any input. -/
theorem C4_second_request_serialized (i l : Bool) (m : String)
    (g : GenOutcome) (es : List ClientEvent) :
    websocket_chat_endpoint i l (.message m g :: es)
        = handle_chat_message i l m (ovStream g)
          ++ websocket_chat_endpoint i l es
      ∧ ∀ evs : List ClientEvent, ∀ f ∈ websocket_chat_endpoint i l evs,
          f ≠ Frame.error "already generating" := by
  refine ⟨rfl, ?_⟩
  intro evs
  induction evs with
  | nil => intro f hf; simp [websocket_chat_endpoint] at hf
  | cons e es ih =>
      intro f hf
      rw [websocket_chat_endpoint, List.mem_append] at hf
      rcases hf with hf | hf
      · cases e with
        | malformed =>
            simp [handle_websocket_message] at hf
            subst hf
            decide
        | message m' g' =>
            exact mem_handle_chat_message_not_error_already i l m' (ovStream g') f hf
        | ping =>
            simp [handle_websocket_message] at hf
            subst hf
            decide
        | unknown t =>
            simp [handle_websocket_message] at hf
            subst hf
            intro hcontra
            have hs : "Unknown message type: " ++ t = "already generating" :=
              Frame.error.inj hcontra
            have hl := congrArg String.length hs
            rw [String.length_append] at hl
            have h22 : ("Unknown message type: " : String).length = 22 := rfl
            have h18 : ("already generating" : String).length = 18 := rfl
            rw [h22, h18] at hl
            omega
      · exact ih f hf

/-- Witness for C4 (amended) at a concrete channel history: one chat
request followed by nothing, and the concrete frame `start` emitted for it
is not an "already generating" error. -/
theorem C4_second_request_serialized_witness :
    websocket_chat_endpoint true true [.message "hi" (.ok ["a"])]
        = handle_chat_message true true "hi" (ovStream (.ok ["a"]))
          ++ websocket_chat_endpoint true true []
      ∧ Frame.start ≠ Frame.error "already generating" :=
  ⟨(C4_second_request_serialized true true "hi" (.ok ["a"]) []).1,
    (C4_second_request_serialized true true "hi" (.ok ["a"]) []).2
      [.message "hi" (.ok ["a"])] Frame.start (by decide)⟩

/-- C4 counterexample: two generation requests arriving on the same channel
(end-to-end scenario 2).  The code runs both to completion in sequence and
emits no error frame at all — there is no "already generating" rejection
anywhere in the program. -/
theorem C4_counterexample :
    websocket_chat_endpoint true true
        [.message "hi" (.ok ["a"]), .message "yo" (.ok ["b"])]
        = [Frame.start, Frame.token "a" false, Frame.complete 1,
           Frame.start, Frame.token "b" false, Frame.complete 1]
      ∧ countFrames isErrorFrame
          (websocket_chat_endpoint true true
            [.message "hi" (.ok ["a"]), .message "yo" (.ok ["b"])]) = 0 := by
  refine ⟨by decide, by decide⟩

/-- C9: any malformed inbound frame — unparseable JSON, an unknown message
type, or a chat message whose text is empty after stripping — is answered
with exactly one `error` frame for that message alone, and the connection
stays open: the remaining inbound messages are processed exactly as if the
malformed one had been first removed. -/
theorem C9_malformed_message_rejected (i l : Bool) (e : ClientEvent)
    (es : List ClientEvent)
    (h : e = .malformed ∨ (∃ t, e = .unknown t)
        ∨ ∃ m g, e = .message m g ∧ pyStrip m = "") :
    ∃ msg, handle_websocket_message i l e = [Frame.error msg]
      ∧ websocket_chat_endpoint i l (e :: es)
          = Frame.error msg :: websocket_chat_endpoint i l es := by
  have hmain : ∃ msg, handle_websocket_message i l e = [Frame.error msg] := by
    rcases h with h | ⟨t, h⟩ | ⟨m, g, h, hm⟩
    · exact ⟨"Invalid JSON format", by rw [h]; rfl⟩
    · exact ⟨"Unknown message type: " ++ t, by rw [h]; rfl⟩
    · subst h
      cases hready : is_model_ready i l with
      | false =>
          exact ⟨"Model not ready", by
            simp [handle_websocket_message, handle_chat_message, hready]⟩
      | true =>
          exact ⟨"Empty message", by
            simp [handle_websocket_message, handle_chat_message, hready, hm]⟩
  rcases hmain with ⟨msg, hmsg⟩
  exact ⟨msg, hmsg, by rw [websocket_chat_endpoint, hmsg]; rfl⟩

/-- Witness for C9: an unparseable frame followed by a ping; the server
sends exactly one error frame and still answers the ping. -/
theorem C9_malformed_message_rejected_witness :
    handle_websocket_message true true .malformed
        = [Frame.error "Invalid JSON format"]
      ∧ websocket_chat_endpoint true true [.malformed, .ping]
          = Frame.error "Invalid JSON format"
              :: websocket_chat_endpoint true true [.ping] := by
  obtain ⟨msg, h1, h2⟩ :=
    C9_malformed_message_rejected true true .malformed [.ping] (Or.inl rfl)
  have h0 : handle_websocket_message true true ClientEvent.malformed
      = [Frame.error "Invalid JSON format"] := rfl
  rw [h0] at h1
  simp only [List.cons.injEq, and_true] at h1
  have hmsg : msg = "Invalid JSON format" := (Frame.error.inj h1).symm
  subst hmsg
  exact ⟨h0, h2⟩

/-- Python's `str.startswith`: Boolean test that `pre` is a prefix of `s`,
written over the character lists so that concrete instances evaluate inside
the kernel. -/
def pyStartsWith (s pre : String) : Bool :=
  pre.data.isPrefixOf s.data

/-- The dictionary returned by
`OpenVINOInferenceEngine.generate_single_response` (ov_inference.py lines
319-346); the wall-clock `inference_time` field is omitted. -/
structure SingleResult where
  response : String
  tokensGenerated : Nat
  error : Bool
deriving DecidableEq, Repr

/-- Concatenation of a token list, mirroring the repeated
`full_response += token` of `generate_single_response`. -/
def concatTokens : List String → String
  | [] => ""
  | t :: ts => t ++ concatTokens ts

/-- The accumulation loop of `generate_single_response`: fold over the
tokens yielded by the streaming pipeline, appending each token that does
not start with "Error:" and counting it; at the first token that does, the
function returns immediately with that token as the response,
`tokens_generated = 0` and `error = True`; on normal exhaustion it returns
the accumulated text stripped of surrounding whitespace
(`full_response.strip()`), the count, and `error = False`. -/
def single_response_loop (full : String) (count : Nat) :
    List String → SingleResult
  | [] => SingleResult.mk (pyStrip full) count false
  | t :: ts =>
      if pyStartsWith t "Error:" = true then SingleResult.mk t 0 true
      else single_response_loop (full ++ t) (count + 1) ts

/-- Embedding of `OpenVINOInferenceEngine.generate_single_response`
(ov_inference.py lines 319-346), applied to the token stream produced by
the identical streaming pipeline `generate_response`. -/
def generate_single_response (stream : List String) : SingleResult :=
  single_response_loop "" 0 stream

theorem single_response_loop_clean (ts : List String) :
    ∀ (full : String) (count : Nat),
      (∀ t ∈ ts, pyStartsWith t "Error:" = false) →
      single_response_loop full count ts
        = SingleResult.mk (pyStrip (full ++ concatTokens ts))
            (count + ts.length) false := by
  induction ts with
  | nil =>
      intro full count _
      simp [single_response_loop, concatTokens]
  | cons t ts ih =>
      intro full count h
      have ht : pyStartsWith t "Error:" = false := h t (by simp)
      have hts : ∀ u ∈ ts, pyStartsWith u "Error:" = false := by
        intro u hu
        exact h u (by simp [hu])
      rw [single_response_loop, if_neg (by simp [ht]), ih (full ++ t) (count + 1) hts]
      have hassoc : full ++ t ++ concatTokens ts = full ++ (t ++ concatTokens ts) :=
        String.append_assoc full t (concatTokens ts)
      rw [concatTokens, hassoc]
      simp [List.length_cons]
      omega

theorem single_response_loop_error (ts : List String) :
    ∀ (full : String) (count : Nat) (x : String),
      (∀ t ∈ ts, pyStartsWith t "Error:" = false) →
      pyStartsWith x "Error:" = true →
      single_response_loop full count (ts ++ [x])
        = SingleResult.mk x 0 true := by
  induction ts with
  | nil =>
      intro full count x _ hx
      simp [single_response_loop, hx]
  | cons t ts ih =>
      intro full count x h hx
      have ht : pyStartsWith t "Error:" = false := h t (by simp)
      have hts : ∀ u ∈ ts, pyStartsWith u "Error:" = false := by
        intro u hu
        exact h u (by simp [hu])
      rw [List.cons_append, single_response_loop, if_neg (by simp [ht])]
      exact ih (full ++ t) (count + 1) x hts hx

theorem pyStartsWith_error_append (e : String) :
    pyStartsWith ("Error: " ++ e) "Error:" = true := by
  have hdata : ("Error: " ++ e).data = "Error: ".data ++ e.data :=
    String.data_append _ _
  rw [pyStartsWith, hdata]
  simp [List.isPrefixOf, String.data]

/-- C5 (amended): the single-response surface is computed from the token
stream of the identical streaming pipeline `ovStream`.  On a normally
completing generation whose tokens do not start with "Error:", it returns
the concatenation of the yielded tokens stripped of surrounding whitespace,
a `tokens_generated` count equal to the number of tokens the pipeline
yielded, and `error = false`; on a generation that fails after those
tokens, the pipeline's trailing "Error: ..." token is returned alone as
the response with `tokens_generated = 0` and `error = true`. -/
theorem C5_single_response_follows_stream (ts : List String) (e : String)
    (h : ∀ t ∈ ts, pyStartsWith t "Error:" = false) :
    generate_single_response (ovStream (.ok ts))
        = SingleResult.mk (pyStrip (concatTokens (ovStream (.ok ts))))
            (ovStream (.ok ts)).length false
      ∧ generate_single_response (ovStream (.failAfter ts e))
        = SingleResult.mk ("Error: " ++ e) 0 true := by
  have hclean : ∀ t ∈ ovStream (.ok ts), pyStartsWith t "Error:" = false := by
    intro t htmem
    have : t ∈ ts := List.mem_of_mem_filter htmem
    exact h t this
  constructor
  · rw [generate_single_response,
      single_response_loop_clean (ovStream (.ok ts)) "" 0 hclean]
    simp
  · have hstream : ovStream (.failAfter ts e)
        = ovStream (.ok ts) ++ ["Error: " ++ e] := rfl
    rw [generate_single_response, hstream,
      single_response_loop_error (ovStream (.ok ts)) "" 0 ("Error: " ++ e)
        hclean (pyStartsWith_error_append e)]

/-- Witness for C5 (amended) at a concrete stream: tokens
["Hi", " there "] and failure message "boom". -/
theorem C5_single_response_follows_stream_witness :
    generate_single_response (ovStream (.ok ["Hi", " there "]))
        = SingleResult.mk
            (pyStrip (concatTokens (ovStream (.ok ["Hi", " there "]))))
            (ovStream (.ok ["Hi", " there "])).length false
      ∧ generate_single_response (ovStream (.failAfter ["Hi", " there "] "boom"))
        = SingleResult.mk ("Error: " ++ "boom") 0 true :=
  C5_single_response_follows_stream ["Hi", " there "] "boom" (by decide)

/-- C5 counterexample: on the normally completing stream whose single
yielded token is "hello " (tokens with trailing spaces are exactly what the
simulation path yields), the returned response is the stripped string
"hello", not the concatenated full text "hello " that the claim
prescribes. -/
theorem C5_counterexample :
    generate_single_response (ovStream (.ok ["hello "]))
        = SingleResult.mk "hello" 1 false
      ∧ concatTokens (ovStream (.ok ["hello "])) = "hello "
      ∧ generate_single_response (ovStream (.ok ["hello "]))
        ≠ SingleResult.mk (concatTokens (ovStream (.ok ["hello "]))) 1 false := by
  refine ⟨by decide, ?_, ?_⟩
  · decide
  · decide

/-- Phase of one connection-handler coroutine running `handle_chat_message`
for a request whose generation will yield the recorded token list:
`pending` — the inbound message has been received and the handler is about
to run the guards; `running` — the handler has sent the `start` frame and
is inside the token loop with `rest` still to stream (this is the
`Running`/`activeSession` notion of the claim: the handler is actively
pulling tokens from the shared inference engine); `finished` — the
`complete` frame has been sent. -/
inductive HandlerPhase where
  | pending (tokens : List String) : HandlerPhase
  | running (rest : List String) : HandlerPhase
  | finished : HandlerPhase
deriving DecidableEq, Repr

def isRunningPhase : HandlerPhase → Bool
  | .running _ => true
  | _ => false

/-- Number of handlers currently running a generation on the shared
engine. -/
def runningCount (l : List HandlerPhase) : Nat :=
  (l.filter (fun p => isRunningPhase p)).length

/-- Interleaving semantics of the per-connection handler coroutines of
`websocket_chat_endpoint` (one coroutine per connected client, all sharing
the global `model_manager`).  Each constructor advances one handler across
one atomic segment between `await` suspension points of
`handle_chat_message` (websocket.py lines 96-173): `enter` passes the
guards, sends `start` and begins consuming the engine generator; `emit`
sends one `token` frame and suspends at `await asyncio.sleep(0.01)`;
`finish` sends the `complete` frame.  `enter` is enabled regardless of the
other handlers' phases because the code takes no lock and consults no
shared in-flight state before invoking the shared engine. -/
inductive WsStep : List HandlerPhase → List HandlerPhase → Prop where
  | enter (l : List HandlerPhase) (i : Nat) (ts : List String)
      (h : l[i]? = some (.pending ts)) :
      WsStep l (l.set i (.running ts))
  | emit (l : List HandlerPhase) (i : Nat) (t : String) (rest : List String)
      (h : l[i]? = some (.running (t :: rest))) :
      WsStep l (l.set i (.running rest))
  | finish (l : List HandlerPhase) (i : Nat)
      (h : l[i]? = some (.running [])) :
      WsStep l (l.set i .finished)

/-- C1 fails on the code: from two clients with one pending request each,
the interleaved execution reaches a state in which both sessions are
simultaneously running on the shared inference engine — the backend is
invoked concurrently, with no single serving worker and no mutual
exclusion anywhere in the program. -/
theorem C1_concurrent_running_reachable :
    ∃ s, Relation.ReflTransGen WsStep
        [HandlerPhase.pending ["a"], HandlerPhase.pending ["b"]] s
      ∧ 2 ≤ runningCount s := by
  refine ⟨[HandlerPhase.running ["a"], HandlerPhase.running ["b"]], ?_, by decide⟩
  have s1 : WsStep [HandlerPhase.pending ["a"], HandlerPhase.pending ["b"]]
      [HandlerPhase.running ["a"], HandlerPhase.pending ["b"]] :=
    WsStep.enter [HandlerPhase.pending ["a"], HandlerPhase.pending ["b"]] 0 ["a"] rfl
  have s2 : WsStep [HandlerPhase.running ["a"], HandlerPhase.pending ["b"]]
      [HandlerPhase.running ["a"], HandlerPhase.running ["b"]] :=
    WsStep.enter [HandlerPhase.running ["a"], HandlerPhase.pending ["b"]] 1 ["b"] rfl
  exact Relation.ReflTransGen.tail (Relation.ReflTransGen.single s1) s2

/-- Environment of one engine initialization pass: whether the OpenVINO
libraries imported (ov_inference.py lines 9-18), which devices
`core.available_devices` reports, whether `OVModelForCausalLM` loads on a
given device, and whether the tokenizer loads.  The environment is fixed
for the duration of a pass, so repeated attempts are deterministic. -/
structure InitEnv where
  openvinoAvailable : Bool
  availableDevices : List String
  loadOk : String → Bool
  tokenizerOk : Bool

/-- Result of one initialization pass: whether the engine ended up loaded
(`is_loaded` / the Boolean returned by `initialize`), the final value of
`config.hardware.device`, and the devices on which a model load was
attempted, in order. -/
structure InitRes where
  ok : Bool
  device : String
  attempts : List String
deriving DecidableEq, Repr

/-- The NPU-availability check of `initialize` (ov_inference.py lines
54-56): if "NPU" is not among the available devices the configured device
is overwritten with "CPU", otherwise kept. -/
def checkNpuAvailable (availableDevices : List String) (device : String) :
    String :=
  if "NPU" ∈ availableDevices then device else "CPU"

namespace OpenVINOInferenceEngine

/-- Embedding of `_load_model` (ov_inference.py lines 69-191) at the level
of outcomes: a tokenizer failure aborts before any device attempt (the
outer `except` re-raises, line 191); a model-load failure on "NPU"
triggers exactly one CPU fallback attempt (lines 162-185), which on
success also sets `config.hardware.device = "CPU"` (line 185); a load
failure on any other device re-raises (line 187). -/
def load_model (e : InitEnv) (device : String) : InitRes :=
  if e.tokenizerOk = false then InitRes.mk false device []
  else if e.loadOk device = true then InitRes.mk true device [device]
  else if device = "NPU" then
    if e.loadOk "CPU" = true then InitRes.mk true "CPU" ["NPU", "CPU"]
    else InitRes.mk false "NPU" ["NPU", "CPU"]
  else InitRes.mk false device [device]

/-- Embedding of `OpenVINOInferenceEngine.engineInit` (ov_inference.py
lines 34-67): with no backend available it reports success in simulation
mode without touching the device; otherwise it runs the NPU-availability
check and `_load_model`, returning `False` (ok = false) if loading
raised. -/
def engineInit (e : InitEnv) (device : String) : InitRes :=
  if e.openvinoAvailable = false then InitRes.mk true device []
  else load_model e (checkNpuAvailable e.availableDevices device)

end OpenVINOInferenceEngine

theorem checkNpuAvailable_stable (avail : List String) (d : String) :
    checkNpuAvailable avail (checkNpuAvailable avail d)
      = checkNpuAvailable avail d := by
  unfold checkNpuAvailable
  split <;> simp_all

theorem checkNpuAvailable_CPU (avail : List String) :
    checkNpuAvailable avail "CPU" = "CPU" := by
  unfold checkNpuAvailable
  split <;> rfl

/-- Keys of the dictionary built by `get_model_info`. -/
inductive InfoVal where
  | s (v : String) : InfoVal
  | n (v : Nat) : InfoVal
  | b (v : Bool) : InfoVal
deriving DecidableEq, Repr

/-- The configuration fields read by `get_model_info`
(`config.model.name`, `config.model.model_type`, `config.hardware.device`,
`config.model.precision`, `config.model.max_context_length`). -/
structure ModelCfg where
  name : String
  modelType : String
  device : String
  precision : String
  maxContextLength : Nat
deriving DecidableEq, Repr

/-- Embedding of `OpenVINOInferenceEngine.get_model_info` (ov_inference.py
lines 348-368) as the association list of the dictionary it returns, in
insertion order.  `tokenizerVocab` is `some n` when a tokenizer object is
present (with `len(tokenizer) = n`), `none` when `self.tokenizer` is
`None`. -/
def get_model_info (isLoaded openvinoAvailable : Bool)
    (tokenizerVocab : Option Nat) (c : ModelCfg) : List (String × InfoVal) :=
  if isLoaded = false then [("loaded", InfoVal.b false)]
  else
    let base := [("loaded", InfoVal.b true),
      ("model_name", InfoVal.s c.name),
      ("model_type", InfoVal.s c.modelType),
      ("device", InfoVal.s c.device),
      ("precision", InfoVal.s c.precision),
      ("max_context_length", InfoVal.n c.maxContextLength)]
    match openvinoAvailable, tokenizerVocab with
    | true, some v => base ++ [("vocab_size", InfoVal.n v)]
    | _, _ =>
        base ++ [("vocab_size", InfoVal.s "N/A (Simulation Mode)"),
          ("simulation_mode", InfoVal.b true)]

/-- C6: whenever the preferred device "NPU" is unavailable or fails to
load while "CPU" loads, initialization succeeds (never the failed state),
ends bound to "CPU" (the degraded, non-preferred binding), attempts "NPU"
at most once — never again after its first failure within the pass — and
the effective device "CPU" is what status reporting then records. -/
theorem C6_device_fallback (e : InitEnv)
    (hov : e.openvinoAvailable = true) (htok : e.tokenizerOk = true)
    (hnpu : e.loadOk "NPU" = false ∨ "NPU" ∉ e.availableDevices)
    (hcpu : e.loadOk "CPU" = true) :
    (OpenVINOInferenceEngine.engineInit e "NPU").ok = true
      ∧ (OpenVINOInferenceEngine.engineInit e "NPU").device = "CPU"
      ∧ ((OpenVINOInferenceEngine.engineInit e "NPU").attempts = ["NPU", "CPU"]
          ∨ (OpenVINOInferenceEngine.engineInit e "NPU").attempts = ["CPU"])
      ∧ ∀ (c : ModelCfg) (v : Nat),
          ("device", InfoVal.s "CPU") ∈ get_model_info true true (some v)
            { c with device := (OpenVINOInferenceEngine.engineInit e "NPU").device } := by
  by_cases hmem : "NPU" ∈ e.availableDevices
  · have hfail : e.loadOk "NPU" = false := by
      rcases hnpu with h | h
      · exact h
      · exact absurd hmem h
    have hres : OpenVINOInferenceEngine.engineInit e "NPU"
        = InitRes.mk true "CPU" ["NPU", "CPU"] := by
      simp [OpenVINOInferenceEngine.engineInit,
        OpenVINOInferenceEngine.load_model, checkNpuAvailable,
        hov, htok, hfail, hcpu, hmem]
    rw [hres]
    refine ⟨rfl, rfl, Or.inl rfl, ?_⟩
    intro c v
    simp [get_model_info]
  · have hres : OpenVINOInferenceEngine.engineInit e "NPU"
        = InitRes.mk true "CPU" ["CPU"] := by
      simp [OpenVINOInferenceEngine.engineInit,
        OpenVINOInferenceEngine.load_model, checkNpuAvailable,
        hov, htok, hcpu, hmem]
    rw [hres]
    refine ⟨rfl, rfl, Or.inr rfl, ?_⟩
    intro c v
    simp [get_model_info]

/-- Witness for C6: an environment where only "CPU" is available and only
"CPU" loads, with a concrete configuration record. -/
theorem C6_device_fallback_witness :
    (OpenVINOInferenceEngine.engineInit
        (InitEnv.mk true ["CPU"] (fun d => d == "CPU") true) "NPU").ok = true
      ∧ (OpenVINOInferenceEngine.engineInit
          (InitEnv.mk true ["CPU"] (fun d => d == "CPU") true) "NPU").device = "CPU"
      ∧ ((OpenVINOInferenceEngine.engineInit
            (InitEnv.mk true ["CPU"] (fun d => d == "CPU") true) "NPU").attempts
            = ["NPU", "CPU"]
          ∨ (OpenVINOInferenceEngine.engineInit
              (InitEnv.mk true ["CPU"] (fun d => d == "CPU") true) "NPU").attempts
            = ["CPU"])
      ∧ ("device", InfoVal.s "CPU") ∈ get_model_info true true (some 151936)
          { ModelCfg.mk "DeepSeek-R1-Distill-Qwen-1.5B" "qwen2" "NPU" "FP16" 4096 with
            device := (OpenVINOInferenceEngine.engineInit
              (InitEnv.mk true ["CPU"] (fun d => d == "CPU") true) "NPU").device } :=
  ⟨(C6_device_fallback (InitEnv.mk true ["CPU"] (fun d => d == "CPU") true)
      rfl rfl (Or.inl rfl) rfl).1,
    (C6_device_fallback (InitEnv.mk true ["CPU"] (fun d => d == "CPU") true)
      rfl rfl (Or.inl rfl) rfl).2.1,
    (C6_device_fallback (InitEnv.mk true ["CPU"] (fun d => d == "CPU") true)
      rfl rfl (Or.inl rfl) rfl).2.2.1,
    (C6_device_fallback (InitEnv.mk true ["CPU"] (fun d => d == "CPU") true)
      rfl rfl (Or.inl rfl) rfl).2.2.2
      (ModelCfg.mk "DeepSeek-R1-Distill-Qwen-1.5B" "qwen2" "NPU" "FP16" 4096) 151936⟩

/-- C7: a model-info report produced in simulation mode (engine
initialized with no backend available) is never equal to a report of a
real loaded model (backend available, tokenizer present), whatever the
configurations: the simulation report carries the extra
`simulation_mode: true` entry and a textual `vocab_size`. -/
theorem C7_simulation_mode_distinguishable (c c' : ModelCfg)
    (tok : Option Nat) (v : Nat) :
    get_model_info true false tok c ≠ get_model_info true true (some v) c' := by
  intro h
  have hlen := congrArg List.length h
  simp [get_model_info] at hlen

theorem engineInit_stable (e : InitEnv) (d : String) :
    (OpenVINOInferenceEngine.engineInit e
        ((OpenVINOInferenceEngine.engineInit e d).device)).device
      = (OpenVINOInferenceEngine.engineInit e d).device
    ∧ (OpenVINOInferenceEngine.engineInit e
        ((OpenVINOInferenceEngine.engineInit e d).device)).ok
      = (OpenVINOInferenceEngine.engineInit e d).ok := by
  cases hov : e.openvinoAvailable with
  | false =>
      constructor <;> simp [OpenVINOInferenceEngine.engineInit, hov]
  | true =>
      cases htok : e.tokenizerOk with
      | false =>
          constructor <;>
            simp [OpenVINOInferenceEngine.engineInit,
              OpenVINOInferenceEngine.load_model, hov, htok,
              checkNpuAvailable_stable]
      | true =>
          by_cases hload : e.loadOk (checkNpuAvailable e.availableDevices d) = true
          · constructor <;>
              simp [OpenVINOInferenceEngine.engineInit,
                OpenVINOInferenceEngine.load_model, hov, htok,
                checkNpuAvailable_stable, hload]
          · by_cases hnpu : checkNpuAvailable e.availableDevices d = "NPU"
            · have hmem : "NPU" ∈ e.availableDevices := by
                by_contra hm
                simp [checkNpuAvailable, hm] at hnpu
              have hnload : e.loadOk "NPU" = false := by
                rw [hnpu] at hload
                exact Bool.eq_false_iff.mpr hload
              by_cases hcpu : e.loadOk "CPU" = true
              · have h1 : OpenVINOInferenceEngine.engineInit e d
                    = InitRes.mk true "CPU" ["NPU", "CPU"] := by
                  unfold OpenVINOInferenceEngine.engineInit
                  rw [if_neg (by simp [hov]), hnpu]
                  simp [OpenVINOInferenceEngine.load_model, htok, hnload, hcpu]
                have h2 : OpenVINOInferenceEngine.engineInit e "CPU"
                    = InitRes.mk true "CPU" ["CPU"] := by
                  unfold OpenVINOInferenceEngine.engineInit
                  rw [if_neg (by simp [hov]), checkNpuAvailable_CPU]
                  simp [OpenVINOInferenceEngine.load_model, htok, hcpu]
                refine ⟨?_, ?_⟩ <;> rw [h1] <;> simp [h2]
              · have hcload : e.loadOk "CPU" = false :=
                  Bool.eq_false_iff.mpr hcpu
                have hN : checkNpuAvailable e.availableDevices "NPU" = "NPU" := by
                  simp [checkNpuAvailable, hmem]
                have h1 : OpenVINOInferenceEngine.engineInit e d
                    = InitRes.mk false "NPU" ["NPU", "CPU"] := by
                  unfold OpenVINOInferenceEngine.engineInit
                  rw [if_neg (by simp [hov]), hnpu]
                  simp [OpenVINOInferenceEngine.load_model, htok, hnload, hcload]
                have h2 : OpenVINOInferenceEngine.engineInit e "NPU"
                    = InitRes.mk false "NPU" ["NPU", "CPU"] := by
                  unfold OpenVINOInferenceEngine.engineInit
                  rw [if_neg (by simp [hov]), hN]
                  simp [OpenVINOInferenceEngine.load_model, htok, hnload, hcload]
                refine ⟨?_, ?_⟩ <;> rw [h1] <;> simp [h2]
            · constructor <;>
                simp [OpenVINOInferenceEngine.engineInit,
                  OpenVINOInferenceEngine.load_model, hov, htok, hload,
                  hnpu, checkNpuAvailable_stable]

/-- Mutable state of the global `ModelManager`
(app/models/model_manager.py): the shared `config.hardware.device`, the
`is_initialized` flag, and the engine slot (`none` when
`self.inference_engine` is `None`, otherwise `some is_loaded`). -/
structure MgrState where
  device : String
  isInitialized : Bool
  engine : Option Bool
deriving DecidableEq, Repr

namespace ModelManager

/-- Embedding of `ModelManager.initialize` (model_manager.py lines 18-41):
a failed system-requirements check returns without touching the state;
otherwise a fresh engine object is created and initialized from the
current device configuration, `is_initialized` is set exactly when the
engine initialization reports success, and the engine's loaded flag equals
that same report. -/
def managerInit (sysOk : Bool) (e : InitEnv) (st : MgrState) : MgrState :=
  if sysOk = false then st
  else
    let r := OpenVINOInferenceEngine.engineInit e st.device
    MgrState.mk r.device r.ok (some r.ok)

/-- Embedding of `ModelManager.reload_model` (model_manager.py lines
104-112): discard the engine, clear `is_initialized`, then run
`initialize` again. -/
def reload_model (sysOk : Bool) (e : InitEnv) (st : MgrState) : MgrState :=
  managerInit sysOk e (MgrState.mk st.device false none)

end ModelManager

/-- C8: with a fixed environment and no intervening traffic, reloading
twice leaves the manager in exactly the state — same terminal
initialization flag, same bound device, same engine condition — that a
single reload produces. -/
theorem C8_reload_idempotent (sysOk : Bool) (e : InitEnv) (st : MgrState) :
    ModelManager.reload_model sysOk e (ModelManager.reload_model sysOk e st)
      = ModelManager.reload_model sysOk e st := by
  cases hsys : sysOk with
  | false => simp [ModelManager.reload_model, ModelManager.managerInit]
  | true =>
      have hst := engineInit_stable e st.device
      simp [ModelManager.reload_model, ModelManager.managerInit]
      exact ⟨hst.1, hst.2⟩

/-- JSON values as produced by `json.load` for the configuration file read
by `Config` (app/core/config.py): dictionaries are association lists in
insertion order (keys unique in a parsed JSON object). -/
inductive JVal where
  | null : JVal
  | b (v : Bool) : JVal
  | num (v : Int) : JVal
  | str (v : String) : JVal
  | arr (items : List JVal) : JVal
  | obj (entries : List (String × JVal)) : JVal

/-- Python's `k in value` / `value[k]` on a dict, over the association
list. -/
def lookupKey : List (String × JVal) → String → Option JVal
  | [], _ => none
  | (k, v) :: rest, key => if k = key then some v else lookupKey rest key

/-- The loop of `Config.get` (config.py lines 59-68): walk the segments;
at each one, continue only if the current value is a dict containing the
segment, else return the default immediately. -/
def getLoop : List String → JVal → JVal → JVal
  | [], value, _ => value
  | k :: ks, value, dflt =>
      match value with
      | .obj entries =>
          match lookupKey entries k with
          | some v => getLoop ks v dflt
          | none => dflt
      | _ => dflt

/-- Embedding of `Config.get` (config.py lines 57-68): split the key on
dots exactly as `key.split('.')` does and walk the stored configuration.
It is a pure function of the configuration — the method performs no
writes, so the configuration is left unchanged. -/
def config_get (cfg : JVal) (key : String) (dflt : JVal) : JVal :=
  getLoop (key.splitOn ".") cfg dflt

/-- Path lookup in the claim's sense: `some v` exactly when every segment
indexes into a nested dictionary along the path, `none` on any missing
segment or non-dict intermediate value. -/
def pathLookup : JVal → List String → Option JVal
  | v, [] => some v
  | .obj entries, k :: ks =>
      match lookupKey entries k with
      | some v => pathLookup v ks
      | none => none
  | _, _ :: _ => none

theorem getLoop_eq_pathLookup (ks : List String) : ∀ (v dflt : JVal),
    getLoop ks v dflt = (pathLookup v ks).getD dflt := by
  induction ks with
  | nil =>
      intro v dflt
      cases v <;> rfl
  | cons k ks ih =>
      intro v dflt
      cases v with
      | obj entries =>
          cases h : lookupKey entries k with
          | none => simp [getLoop, pathLookup, h]
          | some v' => simp [getLoop, pathLookup, h, ih]
      | null => rfl
      | b w => rfl
      | num w => rfl
      | str w => rfl
      | arr items => rfl

/-- C10: `Config.get` is total (a function in the embedding, with every
branch returning a value): it splits the key on dots and returns the
stored value exactly when every segment indexes into a nested dictionary
along the path, and the caller-supplied default otherwise — the two cases
together being the `getD` of the path lookup — while the configuration,
read but never written, is unchanged. -/
theorem C10_config_get_total (cfg dflt : JVal) (key : String) :
    config_get cfg key dflt = (pathLookup cfg (key.splitOn ".")).getD dflt :=
  getLoop_eq_pathLookup (key.splitOn ".") cfg dflt

end Chatbot
